import Mathlib

/-!
Verification of the OID database module (library/oid.c).

The file shallowly embeds the two parts of the module:
  * the OID codec, oid_get_numeric_string together with the SAFE_SNPRINTF
    macro and the C snprintf it relies on, modelled over an explicit memory
    that records every byte write with its offset relative to the output
    buffer (so out-of-bounds writes are observable); and
  * the OID registry: the generic matcher oid_descriptor_from_buf, the
    lookup tables, and the typed accessor functions generated by the
    FN_OID_* macros.
Machine integers are modelled as Nat with explicit reductions: the
unsigned int accumulator of the codec wraps modulo 2^32, and bytes read
through unsigned char reduce modulo 256 at the use sites.
-/

/-- Model of the caller's output buffer: a byte store addressed by Int
offsets relative to the start of the buffer, plus a log of every offset
that has been written.  A write at an offset outside [0, size) is an
out-of-bounds write of the C program. -/
structure Mem where
  mem : Int → Nat
  log : List Int

/-- A concrete all-zero memory used for concrete executions. -/
def zeroMem : Mem := ⟨fun _ => 0, []⟩

/-- Write one byte at the given offset, recording the offset. -/
def writeByte (m : Mem) (off : Int) (v : Nat) : Mem :=
  ⟨fun i => if i = off then v else m.mem i, off :: m.log⟩

/-- Write a sequence of bytes at consecutive offsets. -/
def writeBytes : Mem → Int → List Nat → Mem
  | m, _, [] => m
  | m, off, c :: cs => writeBytes (writeByte m off c) (off + 1) cs

/-- C99 snprintf(str, n, ...) with the formatted output s given as a byte
list: when n = 0 nothing is written; otherwise the first min(|s|, n-1)
bytes of s are written followed by a NUL terminator.  The int return value
of snprintf (the length the full output would have) is s.length, taken
directly at the call sites. -/
def snprintfM (m : Mem) (off : Int) (n : Nat) (s : List Nat) : Mem :=
  if n = 0 then m
  else writeByte (writeBytes m off (s.take (n - 1)))
    (off + ((min s.length (n - 1) : Nat) : Int)) 0

/-- Error code defined at line 489 of oid.c. -/
def POLARSSL_ERR_DEBUG_BUF_TOO_SMALL : Int := -2

/-- sizeof(value) in oid_get_numeric_string, where value has C type
unsigned int: 4 bytes on all platforms this code targets. -/
def UINT_WIDTH_BYTES : Nat := 4

/-- Decimal digits (ASCII codes) of n, via a fuel-indexed division loop;
fuel n + 1 always suffices since n strictly shrinks by /10. -/
def decimalAux : Nat → Nat → List Nat
  | 0, _ => []
  | fuel + 1, n => if n < 10 then [48 + n] else decimalAux fuel (n / 10) ++ [48 + n % 10]

/-- ASCII decimal rendering of a nonnegative integer, as printf %d. -/
def decimal (n : Nat) : List Nat := decimalAux (n + 1) n

/-- Reinterpretation of a 32-bit unsigned value as a signed int, as the
%d conversion applied to the unsigned int value does on two's-complement
targets. -/
def uint_as_int (v : Nat) : Int := if v < 2 ^ 31 then (v : Int) else (v : Int) - 2 ^ 32

/-- printf %d of a (possibly negative) int value. -/
def intDec (i : Int) : List Nat :=
  if i < 0 then 45 :: decimal i.natAbs else decimal i.natAbs

/-- The formatted output of snprintf( p, n, ".%d", value ) at line 537. -/
def dotArc (v : Nat) : List Nat := 46 :: intDec (uint_as_int v)

/-- The formatted output of snprintf( p, n, "%d.%d", oid->p[0] / 40,
oid->p[0] % 40 ) at line 520; the byte is read through unsigned char. -/
def firstStr (b : Nat) : List Nat :=
  decimal (b % 256 / 40) ++ 46 :: decimal (b % 256 % 40)

/-- The SAFE_SNPRINTF macro (lines 491-503) around one snprintf call:
either an early return (left: error code and memory) or the updated
memory, write position p and remaining capacity n (right).  ret is never
-1 in the model since the modelled snprintf cannot fail. -/
def safeSnprintfStep (m : Mem) (p : Int) (n : Nat) (s : List Nat) :
    (Int × Mem) ⊕ (Mem × Int × Nat) :=
  if s.length > n then
    Sum.inl (POLARSSL_ERR_DEBUG_BUF_TOO_SMALL,
      writeByte (snprintfM m p n s) (p + (n : Int) - 1) 0)
  else
    Sum.inr (snprintfM m p n s, p + (s.length : Int), n - s.length)

/-- High bit (0x80) test on a byte read through unsigned char. -/
def hiBit (b : Nat) : Bool := 128 ≤ b % 256

/-- One accumulation step value = (value << 7) + (b & 0x7F) on the
unsigned int accumulator (wraps modulo 2^32). -/
def accum (value b : Nat) : Nat := (value * 128 + b % 128) % 2 ^ 32

/-- The for loop of oid_get_numeric_string (lines 528-541) over the bytes
oid->p[1..len): accumulate 7 bits per byte; on a byte with clear high bit
print ".%d" via SAFE_SNPRINTF and reset the accumulator. -/
def oidLoop : Mem → Int → Nat → Nat → List Nat → (Int × Mem) ⊕ (Mem × Int × Nat)
  | m, p, n, _, [] => Sum.inr (m, p, n)
  | m, p, n, value, b :: rest =>
    if hiBit b then oidLoop m p n (accum value b) rest
    else
      match safeSnprintfStep m p n (dotArc (accum value b)) with
      | Sum.inl e => Sum.inl e
      | Sum.inr (m1, p1, n1) => oidLoop m1 p1 n1 0 rest

/-- Tail of oid_get_numeric_string after the first-byte snprintf: the
overflow guard `if( oid->len > sizeof(value) )` (line 525), the arc loop,
and the final return (int)( size - n ). -/
def oidAfterFirst (size oidLen : Nat) (m : Mem) (p : Int) (n : Nat)
    (rest : List Nat) : Int × Mem :=
  if oidLen > UINT_WIDTH_BYTES then (POLARSSL_ERR_DEBUG_BUF_TOO_SMALL, m)
  else
    match oidLoop m p n 0 rest with
    | Sum.inl e => e
    | Sum.inr (m2, _, n2) => (((size : Int) - (n2 : Int)), m2)

/-- oid_get_numeric_string (lines 506-544).  The OID buffer is given as
the list of its len bytes; the output buffer is the Mem store with its
size.  Result: the int return value of the C function paired with the
final memory. -/
def oid_get_numeric_string (m : Mem) (size : Nat) (oid : List Nat) : Int × Mem :=
  match oid with
  | [] => oidAfterFirst size 0 m 0 size []
  | b :: rest =>
    match safeSnprintfStep m 0 size (firstStr b) with
    | Sum.inl e => e
    | Sum.inr (m1, p1, n1) => oidAfterFirst size (rest.length + 1) m1 p1 n1 rest

/-- The full dotted-decimal rendering of the arcs after the first byte,
with the same accumulator behaviour as the code. -/
def renderArcs : Nat → List Nat → List Nat
  | _, [] => []
  | value, b :: rest =>
    if hiBit b then renderArcs (accum value b) rest
    else dotArc (accum value b) ++ renderArcs 0 rest

/-- The full dotted-decimal rendering of an OID byte sequence: what
oid_get_numeric_string formats when no limit intervenes. -/
def renderOid : List Nat → List Nat
  | [] => []
  | b :: rest => firstStr b ++ renderArcs 0 rest

/-- The md_type_t enumeration (opaque tags from the digest subsystem;
only equality of tags is used by oid.c). -/
inductive md_type_t where
  | POLARSSL_MD_NONE
  | POLARSSL_MD_MD2
  | POLARSSL_MD_MD4
  | POLARSSL_MD_MD5
  | POLARSSL_MD_SHA1
  | POLARSSL_MD_SHA224
  | POLARSSL_MD_SHA256
  | POLARSSL_MD_SHA384
  | POLARSSL_MD_SHA512
  deriving DecidableEq

/-- The pk_type_t enumeration (opaque tags from the public-key subsystem). -/
inductive pk_type_t where
  | POLARSSL_PK_NONE
  | POLARSSL_PK_RSA
  deriving DecidableEq

/-- The cipher_type_t enumeration (opaque tags from the cipher subsystem). -/
inductive cipher_type_t where
  | POLARSSL_CIPHER_NONE
  | POLARSSL_CIPHER_DES_CBC
  | POLARSSL_CIPHER_DES_EDE_CBC
  | POLARSSL_CIPHER_DES_EDE3_CBC
  deriving DecidableEq

/-- oid_descriptor_t: asn1 is the raw OID as a C string (none models the
NULL pointer of the sentinel rows); name and description likewise. -/
structure oid_descriptor_t where
  asn1 : Option (List Nat)
  name : Option String
  description : Option String
  deriving DecidableEq

/-- Modelled from the spec: error code POLARSSL_ERR_OID_NOT_FOUND from
the missing header polarssl/oid.h (distinct negative error value). -/
def POLARSSL_ERR_OID_NOT_FOUND : Int := -0x2E

/-- Modelled from the spec: DER bytes of id-at-commonName 2.5.4.3
(the OID_* byte-string macros live in the missing header polarssl/oid.h;
all of them are the standard DER encodings of the named identifiers). -/
def OID_AT_CN : List Nat := [0x55, 0x04, 0x03]

/-- Modelled from the spec: DER bytes of id-at-countryName 2.5.4.6. -/
def OID_AT_COUNTRY : List Nat := [0x55, 0x04, 0x06]

/-- Modelled from the spec: DER bytes of id-at-locality 2.5.4.7. -/
def OID_AT_LOCALITY : List Nat := [0x55, 0x04, 0x07]

/-- Modelled from the spec: DER bytes of id-at-state 2.5.4.8. -/
def OID_AT_STATE : List Nat := [0x55, 0x04, 0x08]

/-- Modelled from the spec: DER bytes of id-at-organizationName 2.5.4.10. -/
def OID_AT_ORGANIZATION : List Nat := [0x55, 0x04, 0x0A]

/-- Modelled from the spec: DER bytes of id-at-organizationalUnitName 2.5.4.11. -/
def OID_AT_ORG_UNIT : List Nat := [0x55, 0x04, 0x0B]

/-- Modelled from the spec: DER bytes of emailAddress 1.2.840.113549.1.9.1. -/
def OID_PKCS9_EMAIL : List Nat := [0x2A, 0x86, 0x48, 0x86, 0xF7, 0x0D, 0x01, 0x09, 0x01]

/-- Modelled from the spec: DER bytes of id-ce-basicConstraints 2.5.29.19. -/
def OID_BASIC_CONSTRAINTS : List Nat := [0x55, 0x1D, 0x13]

/-- Modelled from the spec: DER bytes of id-ce-keyUsage 2.5.29.15. -/
def OID_KEY_USAGE : List Nat := [0x55, 0x1D, 0x0F]

/-- Modelled from the spec: DER bytes of id-ce-extKeyUsage 2.5.29.37. -/
def OID_EXTENDED_KEY_USAGE : List Nat := [0x55, 0x1D, 0x25]

/-- Modelled from the spec: DER bytes of id-ce-subjectAltName 2.5.29.17. -/
def OID_SUBJECT_ALT_NAME : List Nat := [0x55, 0x1D, 0x11]

/-- Modelled from the spec: DER bytes of id-netscape-certtype 2.16.840.1.113730.1.1. -/
def OID_NS_CERT_TYPE : List Nat := [0x60, 0x86, 0x48, 0x01, 0x86, 0xF8, 0x42, 0x01, 0x01]

/-- Modelled from the spec: DER bytes of id-kp-serverAuth 1.3.6.1.5.5.7.3.1. -/
def OID_SERVER_AUTH : List Nat := [0x2B, 0x06, 0x01, 0x05, 0x05, 0x07, 0x03, 0x01]

/-- Modelled from the spec: DER bytes of id-kp-clientAuth 1.3.6.1.5.5.7.3.2. -/
def OID_CLIENT_AUTH : List Nat := [0x2B, 0x06, 0x01, 0x05, 0x05, 0x07, 0x03, 0x02]

/-- Modelled from the spec: DER bytes of id-kp-codeSigning 1.3.6.1.5.5.7.3.3. -/
def OID_CODE_SIGNING : List Nat := [0x2B, 0x06, 0x01, 0x05, 0x05, 0x07, 0x03, 0x03]

/-- Modelled from the spec: DER bytes of id-kp-emailProtection 1.3.6.1.5.5.7.3.4. -/
def OID_EMAIL_PROTECTION : List Nat := [0x2B, 0x06, 0x01, 0x05, 0x05, 0x07, 0x03, 0x04]

/-- Modelled from the spec: DER bytes of id-kp-timeStamping 1.3.6.1.5.5.7.3.8. -/
def OID_TIME_STAMPING : List Nat := [0x2B, 0x06, 0x01, 0x05, 0x05, 0x07, 0x03, 0x08]

/-- Modelled from the spec: DER bytes of id-kp-OCSPSigning 1.3.6.1.5.5.7.3.9. -/
def OID_OCSP_SIGNING : List Nat := [0x2B, 0x06, 0x01, 0x05, 0x05, 0x07, 0x03, 0x09]

/-- Modelled from the spec: DER bytes of md2WithRSAEncryption 1.2.840.113549.1.1.2. -/
def OID_PKCS1_MD2 : List Nat := [0x2A, 0x86, 0x48, 0x86, 0xF7, 0x0D, 0x01, 0x01, 0x02]

/-- Modelled from the spec: DER bytes of md4WithRSAEncryption 1.2.840.113549.1.1.3. -/
def OID_PKCS1_MD4 : List Nat := [0x2A, 0x86, 0x48, 0x86, 0xF7, 0x0D, 0x01, 0x01, 0x03]

/-- Modelled from the spec: DER bytes of md5WithRSAEncryption 1.2.840.113549.1.1.4. -/
def OID_PKCS1_MD5 : List Nat := [0x2A, 0x86, 0x48, 0x86, 0xF7, 0x0D, 0x01, 0x01, 0x04]

/-- Modelled from the spec: DER bytes of sha-1WithRSAEncryption
1.2.840.113549.1.1.5 (the modern SHA1-RSA signature OID). -/
def OID_PKCS1_SHA1 : List Nat := [0x2A, 0x86, 0x48, 0x86, 0xF7, 0x0D, 0x01, 0x01, 0x05]

/-- Modelled from the spec: DER bytes of sha224WithRSAEncryption 1.2.840.113549.1.1.14. -/
def OID_PKCS1_SHA224 : List Nat := [0x2A, 0x86, 0x48, 0x86, 0xF7, 0x0D, 0x01, 0x01, 0x0E]

/-- Modelled from the spec: DER bytes of sha256WithRSAEncryption 1.2.840.113549.1.1.11. -/
def OID_PKCS1_SHA256 : List Nat := [0x2A, 0x86, 0x48, 0x86, 0xF7, 0x0D, 0x01, 0x01, 0x0B]

/-- Modelled from the spec: DER bytes of sha384WithRSAEncryption 1.2.840.113549.1.1.12. -/
def OID_PKCS1_SHA384 : List Nat := [0x2A, 0x86, 0x48, 0x86, 0xF7, 0x0D, 0x01, 0x01, 0x0C]

/-- Modelled from the spec: DER bytes of sha512WithRSAEncryption 1.2.840.113549.1.1.13. -/
def OID_PKCS1_SHA512 : List Nat := [0x2A, 0x86, 0x48, 0x86, 0xF7, 0x0D, 0x01, 0x01, 0x0D]

/-- Modelled from the spec: DER bytes of the obsolete/legacy SHA1-RSA
signature OID 1.3.14.3.2.29. -/
def OID_RSA_SHA_OBS : List Nat := [0x2B, 0x0E, 0x03, 0x02, 0x1D]

/-- Modelled from the spec: DER bytes of rsaEncryption 1.2.840.113549.1.1.1. -/
def OID_PKCS1_RSA : List Nat := [0x2A, 0x86, 0x48, 0x86, 0xF7, 0x0D, 0x01, 0x01, 0x01]

/-- Modelled from the spec: DER bytes of desCBC 1.3.14.3.2.7. -/
def OID_DES_CBC : List Nat := [0x2B, 0x0E, 0x03, 0x02, 0x07]

/-- Modelled from the spec: DER bytes of des-ede3-cbc 1.2.840.113549.3.7. -/
def OID_DES_EDE3_CBC : List Nat := [0x2A, 0x86, 0x48, 0x86, 0xF7, 0x0D, 0x03, 0x07]

/-- Modelled from the spec: DER bytes of id-md2 1.2.840.113549.2.2. -/
def OID_DIGEST_ALG_MD2 : List Nat := [0x2A, 0x86, 0x48, 0x86, 0xF7, 0x0D, 0x02, 0x02]

/-- Modelled from the spec: DER bytes of id-md4 1.2.840.113549.2.4. -/
def OID_DIGEST_ALG_MD4 : List Nat := [0x2A, 0x86, 0x48, 0x86, 0xF7, 0x0D, 0x02, 0x04]

/-- Modelled from the spec: DER bytes of id-md5 1.2.840.113549.2.5. -/
def OID_DIGEST_ALG_MD5 : List Nat := [0x2A, 0x86, 0x48, 0x86, 0xF7, 0x0D, 0x02, 0x05]

/-- Modelled from the spec: DER bytes of id-sha1 1.3.14.3.2.26. -/
def OID_DIGEST_ALG_SHA1 : List Nat := [0x2B, 0x0E, 0x03, 0x02, 0x1A]

/-- Modelled from the spec: DER bytes of id-sha224 2.16.840.1.101.3.4.2.4. -/
def OID_DIGEST_ALG_SHA224 : List Nat := [0x60, 0x86, 0x48, 0x01, 0x65, 0x03, 0x04, 0x02, 0x04]

/-- Modelled from the spec: DER bytes of id-sha256 2.16.840.1.101.3.4.2.1. -/
def OID_DIGEST_ALG_SHA256 : List Nat := [0x60, 0x86, 0x48, 0x01, 0x65, 0x03, 0x04, 0x02, 0x01]

/-- Modelled from the spec: DER bytes of id-sha384 2.16.840.1.101.3.4.2.2. -/
def OID_DIGEST_ALG_SHA384 : List Nat := [0x60, 0x86, 0x48, 0x01, 0x65, 0x03, 0x04, 0x02, 0x02]

/-- Modelled from the spec: DER bytes of id-sha512 2.16.840.1.101.3.4.2.3. -/
def OID_DIGEST_ALG_SHA512 : List Nat := [0x60, 0x86, 0x48, 0x01, 0x65, 0x03, 0x04, 0x02, 0x03]

/-- Modelled from the spec: DER bytes of pbeWithSHAAnd3-KeyTripleDES-CBC
1.2.840.113549.1.12.1.3. -/
def OID_PKCS12_PBE_SHA1_DES3_EDE_CBC : List Nat :=
  [0x2A, 0x86, 0x48, 0x86, 0xF7, 0x0D, 0x01, 0x0C, 0x01, 0x03]

/-- Modelled from the spec: DER bytes of pbeWithSHAAnd2-KeyTripleDES-CBC
1.2.840.113549.1.12.1.4. -/
def OID_PKCS12_PBE_SHA1_DES2_EDE_CBC : List Nat :=
  [0x2A, 0x86, 0x48, 0x86, 0xF7, 0x0D, 0x01, 0x0C, 0x01, 0x04]

/-- Modelled from the spec: the EXT_* x509 extension type codes from the
missing header polarssl/x509.h (distinct bit flags; only distinctness
matters to oid.c). -/
def EXT_BASIC_CONSTRAINTS : Int := 0x100

/-- Modelled from the spec: x509.h extension flag for key usage. -/
def EXT_KEY_USAGE : Int := 0x04

/-- Modelled from the spec: x509.h extension flag for extended key usage. -/
def EXT_EXTENDED_KEY_USAGE : Int := 0x800

/-- Modelled from the spec: x509.h extension flag for subject alt name. -/
def EXT_SUBJECT_ALT_NAME : Int := 0x20

/-- Modelled from the spec: x509.h extension flag for netscape cert type. -/
def EXT_NS_CERT_TYPE : Int := 0x10000

/-- asn1_buf as used by oid.c: the byte pointer p (none models NULL) with
the list holding exactly the len bytes of the OID value. -/
structure asn1_buf where
  p : Option (List Nat)

/-- C strlen over the byte-list view of a C string: number of bytes
before the first NUL. -/
def cstrlen (s : List Nat) : Nat := (s.takeWhile fun b => b != 0).length

/-- The scanning loop of oid_descriptor_from_buf (lines 136-146): walk the
entries in order, stop at the sentinel (asn1 == NULL), and return the
first entry with strlen(asn1) == len and memcmp(asn1, oid, len) == 0,
where len is the length of the input byte list. -/
def oid_scan {α : Type} (descr : α → oid_descriptor_t) (oidBytes : List Nat) :
    List α → Option α
  | [] => none
  | e :: rest =>
    match (descr e).asn1 with
    | none => none
    | some s =>
      if cstrlen s = oidBytes.length ∧ s.take oidBytes.length = oidBytes then some e
      else oid_scan descr oidBytes rest

/-- oid_descriptor_from_buf (lines 126-149): the generic matcher.  The C
stride-based traversal over a uniform struct layout is modelled by the
projection descr from the table's entry type to its leading
oid_descriptor_t field; NULL struct_set or NULL oid pointer returns NULL
before any entry or input byte is read. -/
def oid_descriptor_from_buf {α : Type} (descr : α → oid_descriptor_t)
    (struct_set : Option (List α)) (oidp : Option (List Nat)) : Option α :=
  match struct_set, oidp with
  | some tbl, some bytes => oid_scan descr bytes tbl
  | _, _ => none

/-- oid_x520_attr_t (lines 154-157). -/
structure oid_x520_attr_t where
  descriptor : oid_descriptor_t
  short_name : Option String
  deriving DecidableEq

/-- The x520 attribute table oid_x520_attr_type (lines 159-193),
sentinel row included. -/
def oid_x520_attr_type : List oid_x520_attr_t :=
  [ ⟨⟨some OID_AT_CN, some "id-at-commonName", some "Common Name"⟩, some "CN"⟩,
    ⟨⟨some OID_AT_COUNTRY, some "id-at-countryName", some "Country"⟩, some "C"⟩,
    ⟨⟨some OID_AT_LOCALITY, some "id-at-locality", some "Locality"⟩, some "L"⟩,
    ⟨⟨some OID_AT_STATE, some "id-at-state", some "State"⟩, some "ST"⟩,
    ⟨⟨some OID_AT_ORGANIZATION, some "id-at-organizationName", some "Organization"⟩, some "O"⟩,
    ⟨⟨some OID_AT_ORG_UNIT, some "id-at-organizationalUnitName", some "Org Unit"⟩, some "OU"⟩,
    ⟨⟨some OID_PKCS9_EMAIL, some "emailAddress", some "E-mail address"⟩, some "emailAddress"⟩,
    ⟨⟨none, none, none⟩, none⟩ ]

/-- oid_x520_attr_from_asn1 (macro FN_OID_TYPED_FROM_ASN1, line 195). -/
def oid_x520_attr_from_asn1 (oid : asn1_buf) : Option oid_x520_attr_t :=
  oid_descriptor_from_buf oid_x520_attr_t.descriptor (some oid_x520_attr_type) oid.p

/-- oid_get_attr_short_name (macro FN_OID_GET_ATTR1, line 196).  The C
output parameter is modelled by passing its prior value out0 and
returning the value it holds after the call. -/
def oid_get_attr_short_name (oid : asn1_buf) (out0 : Option String) :
    Int × Option String :=
  match oid_x520_attr_from_asn1 oid with
  | none => (POLARSSL_ERR_OID_NOT_FOUND, out0)
  | some data => (0, data.short_name)

/-- oid_x509_ext_t (lines 202-205). -/
structure oid_x509_ext_t where
  descriptor : oid_descriptor_t
  ext_type : Int
  deriving DecidableEq

/-- The x509 extension table oid_x509_ext (lines 207-233). -/
def oid_x509_ext : List oid_x509_ext_t :=
  [ ⟨⟨some OID_BASIC_CONSTRAINTS, some "id-ce-basicConstraints", some "Basic Constraints"⟩,
      EXT_BASIC_CONSTRAINTS⟩,
    ⟨⟨some OID_KEY_USAGE, some "id-ce-keyUsage", some "Key Usage"⟩, EXT_KEY_USAGE⟩,
    ⟨⟨some OID_EXTENDED_KEY_USAGE, some "id-ce-keyUsage", some "Extended Key Usage"⟩,
      EXT_EXTENDED_KEY_USAGE⟩,
    ⟨⟨some OID_SUBJECT_ALT_NAME, some "id-ce-subjectAltName", some "Subject Alt Name"⟩,
      EXT_SUBJECT_ALT_NAME⟩,
    ⟨⟨some OID_NS_CERT_TYPE, some "id-netscape-certtype", some "Netscape Certificate Type"⟩,
      EXT_NS_CERT_TYPE⟩,
    ⟨⟨none, none, none⟩, 0⟩ ]

/-- oid_x509_ext_from_asn1 (line 235). -/
def oid_x509_ext_from_asn1 (oid : asn1_buf) : Option oid_x509_ext_t :=
  oid_descriptor_from_buf oid_x509_ext_t.descriptor (some oid_x509_ext) oid.p

/-- oid_get_x509_ext_type (line 236). -/
def oid_get_x509_ext_type (oid : asn1_buf) (out0 : Int) : Int × Int :=
  match oid_x509_ext_from_asn1 oid with
  | none => (POLARSSL_ERR_OID_NOT_FOUND, out0)
  | some data => (0, data.ext_type)

/-- The extended-key-usage table oid_ext_key_usage (lines 238-247); its
entry type is oid_descriptor_t itself. -/
def oid_ext_key_usage : List oid_descriptor_t :=
  [ ⟨some OID_SERVER_AUTH, some "id-kp-serverAuth", some "TLS Web Server Authentication"⟩,
    ⟨some OID_CLIENT_AUTH, some "id-kp-clientAuth", some "TLS Web Client Authentication"⟩,
    ⟨some OID_CODE_SIGNING, some "id-kp-codeSigning", some "Code Signing"⟩,
    ⟨some OID_EMAIL_PROTECTION, some "id-kp-emailProtection", some "E-mail Protection"⟩,
    ⟨some OID_TIME_STAMPING, some "id-kp-timeStamping", some "Time Stamping"⟩,
    ⟨some OID_OCSP_SIGNING, some "id-kp-OCSPSigning", some "OCSP Signing"⟩,
    ⟨none, none, none⟩ ]

/-- oid_ext_key_usage_from_asn1 (line 249). -/
def oid_ext_key_usage_from_asn1 (oid : asn1_buf) : Option oid_descriptor_t :=
  oid_descriptor_from_buf (fun d => d) (some oid_ext_key_usage) oid.p

/-- oid_get_extended_key_usage (line 250): projects the description. -/
def oid_get_extended_key_usage (oid : asn1_buf) (out0 : Option String) :
    Int × Option String :=
  match oid_ext_key_usage_from_asn1 oid with
  | none => (POLARSSL_ERR_OID_NOT_FOUND, out0)
  | some data => (0, data.description)

/-- oid_sig_alg_t (lines 258-262). -/
structure oid_sig_alg_t where
  descriptor : oid_descriptor_t
  md_alg : md_type_t
  pk_alg : pk_type_t
  deriving DecidableEq

/-- The signature-algorithm table oid_sig_alg (lines 264-306): the modern
sha-1WithRSAEncryption row is declared at index 3, the obsolete
OID_RSA_SHA_OBS row at index 8, before the sentinel. -/
def oid_sig_alg : List oid_sig_alg_t :=
  [ ⟨⟨some OID_PKCS1_MD2, some "md2WithRSAEncryption", some "RSA with MD2"⟩,
      .POLARSSL_MD_MD2, .POLARSSL_PK_RSA⟩,
    ⟨⟨some OID_PKCS1_MD4, some "md4WithRSAEncryption", some "RSA with MD4"⟩,
      .POLARSSL_MD_MD4, .POLARSSL_PK_RSA⟩,
    ⟨⟨some OID_PKCS1_MD5, some "md5WithRSAEncryption", some "RSA with MD5"⟩,
      .POLARSSL_MD_MD5, .POLARSSL_PK_RSA⟩,
    ⟨⟨some OID_PKCS1_SHA1, some "sha-1WithRSAEncryption", some "RSA with SHA1"⟩,
      .POLARSSL_MD_SHA1, .POLARSSL_PK_RSA⟩,
    ⟨⟨some OID_PKCS1_SHA224, some "sha224WithRSAEncryption", some "RSA with SHA-224"⟩,
      .POLARSSL_MD_SHA224, .POLARSSL_PK_RSA⟩,
    ⟨⟨some OID_PKCS1_SHA256, some "sha256WithRSAEncryption", some "RSA with SHA-256"⟩,
      .POLARSSL_MD_SHA256, .POLARSSL_PK_RSA⟩,
    ⟨⟨some OID_PKCS1_SHA384, some "sha384WithRSAEncryption", some "RSA with SHA-384"⟩,
      .POLARSSL_MD_SHA384, .POLARSSL_PK_RSA⟩,
    ⟨⟨some OID_PKCS1_SHA512, some "sha512WithRSAEncryption", some "RSA with SHA-512"⟩,
      .POLARSSL_MD_SHA512, .POLARSSL_PK_RSA⟩,
    ⟨⟨some OID_RSA_SHA_OBS, some "sha-1WithRSAEncryption", some "RSA with SHA1"⟩,
      .POLARSSL_MD_SHA1, .POLARSSL_PK_RSA⟩,
    ⟨⟨none, none, none⟩, .POLARSSL_MD_NONE, .POLARSSL_PK_NONE⟩ ]

/-- oid_sig_alg_from_asn1 (line 308). -/
def oid_sig_alg_from_asn1 (oid : asn1_buf) : Option oid_sig_alg_t :=
  oid_descriptor_from_buf oid_sig_alg_t.descriptor (some oid_sig_alg) oid.p

/-- oid_get_sig_alg_desc (macro FN_OID_GET_DESCRIPTOR_ATTR1, line 309). -/
def oid_get_sig_alg_desc (oid : asn1_buf) (out0 : Option String) :
    Int × Option String :=
  match oid_sig_alg_from_asn1 oid with
  | none => (POLARSSL_ERR_OID_NOT_FOUND, out0)
  | some data => (0, data.descriptor.description)

/-- oid_get_sig_alg (macro FN_OID_GET_ATTR2, line 310): writes both
output parameters from the single matched entry, or neither. -/
def oid_get_sig_alg (oid : asn1_buf) (md0 : md_type_t) (pk0 : pk_type_t) :
    Int × md_type_t × pk_type_t :=
  match oid_sig_alg_from_asn1 oid with
  | none => (POLARSSL_ERR_OID_NOT_FOUND, md0, pk0)
  | some data => (0, data.md_alg, data.pk_alg)

/-- The scanning loop of oid_get_oid_by_sig_alg (macro
FN_OID_GET_OID_BY_ATTR2, lines 108-121, instantiated at line 311): walk
until the sentinel, return the asn1 string of the first entry whose
pk_alg and md_alg both match. -/
def oid_get_oid_by_sig_alg_scan (pk : pk_type_t) (md : md_type_t)
    (out0 : Option (List Nat)) : List oid_sig_alg_t → Int × Option (List Nat)
  | [] => (POLARSSL_ERR_OID_NOT_FOUND, out0)
  | e :: rest =>
    match e.descriptor.asn1 with
    | none => (POLARSSL_ERR_OID_NOT_FOUND, out0)
    | some s =>
      if e.pk_alg = pk ∧ e.md_alg = md then (0, some s)
      else oid_get_oid_by_sig_alg_scan pk md out0 rest

/-- oid_get_oid_by_sig_alg (line 311). -/
def oid_get_oid_by_sig_alg (pk : pk_type_t) (md : md_type_t)
    (out0 : Option (List Nat)) : Int × Option (List Nat) :=
  oid_get_oid_by_sig_alg_scan pk md out0 oid_sig_alg

/-- oid_pk_alg_t (lines 317-320). -/
structure oid_pk_alg_t where
  descriptor : oid_descriptor_t
  pk_alg : pk_type_t
  deriving DecidableEq

/-- The public-key table oid_pk_alg (lines 322-332). -/
def oid_pk_alg : List oid_pk_alg_t :=
  [ ⟨⟨some OID_PKCS1_RSA, some "rsaEncryption", some "RSA"⟩, .POLARSSL_PK_RSA⟩,
    ⟨⟨none, none, none⟩, .POLARSSL_PK_NONE⟩ ]

/-- oid_pk_alg_from_asn1 (line 334). -/
def oid_pk_alg_from_asn1 (oid : asn1_buf) : Option oid_pk_alg_t :=
  oid_descriptor_from_buf oid_pk_alg_t.descriptor (some oid_pk_alg) oid.p

/-- oid_get_pk_alg (line 335). -/
def oid_get_pk_alg (oid : asn1_buf) (out0 : pk_type_t) : Int × pk_type_t :=
  match oid_pk_alg_from_asn1 oid with
  | none => (POLARSSL_ERR_OID_NOT_FOUND, out0)
  | some data => (0, data.pk_alg)

/-- oid_cipher_alg_t (lines 341-344). -/
structure oid_cipher_alg_t where
  descriptor : oid_descriptor_t
  cipher_alg : cipher_type_t
  deriving DecidableEq

/-- The cipher table oid_cipher_alg (lines 346-360). -/
def oid_cipher_alg : List oid_cipher_alg_t :=
  [ ⟨⟨some OID_DES_CBC, some "desCBC", some "DES-CBC"⟩, .POLARSSL_CIPHER_DES_CBC⟩,
    ⟨⟨some OID_DES_EDE3_CBC, some "des-ede3-cbc", some "DES-EDE3-CBC"⟩,
      .POLARSSL_CIPHER_DES_EDE3_CBC⟩,
    ⟨⟨none, none, none⟩, .POLARSSL_CIPHER_NONE⟩ ]

/-- oid_cipher_alg_from_asn1 (line 362). -/
def oid_cipher_alg_from_asn1 (oid : asn1_buf) : Option oid_cipher_alg_t :=
  oid_descriptor_from_buf oid_cipher_alg_t.descriptor (some oid_cipher_alg) oid.p

/-- oid_get_cipher_alg (line 363). -/
def oid_get_cipher_alg (oid : asn1_buf) (out0 : cipher_type_t) : Int × cipher_type_t :=
  match oid_cipher_alg_from_asn1 oid with
  | none => (POLARSSL_ERR_OID_NOT_FOUND, out0)
  | some data => (0, data.cipher_alg)

/-- oid_md_alg_t (lines 370-373). -/
structure oid_md_alg_t where
  descriptor : oid_descriptor_t
  md_alg : md_type_t
  deriving DecidableEq

/-- The digest table oid_md_alg (lines 375-417); the id-sha1 row is
duplicated in the source and the duplication is kept here. -/
def oid_md_alg : List oid_md_alg_t :=
  [ ⟨⟨some OID_DIGEST_ALG_MD2, some "id-md2", some "MD2"⟩, .POLARSSL_MD_MD2⟩,
    ⟨⟨some OID_DIGEST_ALG_MD4, some "id-md4", some "MD4"⟩, .POLARSSL_MD_MD4⟩,
    ⟨⟨some OID_DIGEST_ALG_MD5, some "id-md5", some "MD5"⟩, .POLARSSL_MD_MD5⟩,
    ⟨⟨some OID_DIGEST_ALG_SHA1, some "id-sha1", some "SHA-1"⟩, .POLARSSL_MD_SHA1⟩,
    ⟨⟨some OID_DIGEST_ALG_SHA1, some "id-sha1", some "SHA-1"⟩, .POLARSSL_MD_SHA1⟩,
    ⟨⟨some OID_DIGEST_ALG_SHA224, some "id-sha224", some "SHA-224"⟩, .POLARSSL_MD_SHA224⟩,
    ⟨⟨some OID_DIGEST_ALG_SHA256, some "id-sha256", some "SHA-256"⟩, .POLARSSL_MD_SHA256⟩,
    ⟨⟨some OID_DIGEST_ALG_SHA384, some "id-sha384", some "SHA-384"⟩, .POLARSSL_MD_SHA384⟩,
    ⟨⟨some OID_DIGEST_ALG_SHA512, some "id-sha512", some "SHA-512"⟩, .POLARSSL_MD_SHA512⟩,
    ⟨⟨none, none, none⟩, .POLARSSL_MD_NONE⟩ ]

/-- oid_md_alg_from_asn1 (line 419). -/
def oid_md_alg_from_asn1 (oid : asn1_buf) : Option oid_md_alg_t :=
  oid_descriptor_from_buf oid_md_alg_t.descriptor (some oid_md_alg) oid.p

/-- oid_get_md_alg (line 420). -/
def oid_get_md_alg (oid : asn1_buf) (out0 : md_type_t) : Int × md_type_t :=
  match oid_md_alg_from_asn1 oid with
  | none => (POLARSSL_ERR_OID_NOT_FOUND, out0)
  | some data => (0, data.md_alg)

/-- oid_pkcs12_pbe_alg_t (lines 428-432). -/
structure oid_pkcs12_pbe_alg_t where
  descriptor : oid_descriptor_t
  md_alg : md_type_t
  cipher_alg : cipher_type_t
  deriving DecidableEq

/-- The PKCS#12 PBE table oid_pkcs12_pbe_alg (lines 434-448). -/
def oid_pkcs12_pbe_alg : List oid_pkcs12_pbe_alg_t :=
  [ ⟨⟨some OID_PKCS12_PBE_SHA1_DES3_EDE_CBC, some "pbeWithSHAAnd3-KeyTripleDES-CBC",
        some "PBE with SHA1 and 3-Key 3DES"⟩,
      .POLARSSL_MD_SHA1, .POLARSSL_CIPHER_DES_EDE3_CBC⟩,
    ⟨⟨some OID_PKCS12_PBE_SHA1_DES2_EDE_CBC, some "pbeWithSHAAnd2-KeyTripleDES-CBC",
        some "PBE with SHA1 and 2-Key 3DES"⟩,
      .POLARSSL_MD_SHA1, .POLARSSL_CIPHER_DES_EDE_CBC⟩,
    ⟨⟨none, none, none⟩, .POLARSSL_MD_NONE, .POLARSSL_CIPHER_NONE⟩ ]

/-- oid_pkcs12_pbe_alg_from_asn1 (line 450). -/
def oid_pkcs12_pbe_alg_from_asn1 (oid : asn1_buf) : Option oid_pkcs12_pbe_alg_t :=
  oid_descriptor_from_buf oid_pkcs12_pbe_alg_t.descriptor (some oid_pkcs12_pbe_alg) oid.p

/-- oid_get_pkcs12_pbe_alg (macro FN_OID_GET_ATTR2, line 451). -/
def oid_get_pkcs12_pbe_alg (oid : asn1_buf) (md0 : md_type_t) (c0 : cipher_type_t) :
    Int × md_type_t × cipher_type_t :=
  match oid_pkcs12_pbe_alg_from_asn1 oid with
  | none => (POLARSSL_ERR_OID_NOT_FOUND, md0, c0)
  | some data => (0, data.md_alg, data.cipher_alg)

/-- An early return produced by SAFE_SNPRINTF always carries the
buffer-too-small error code (the modelled snprintf never returns -1). -/
lemma safeSnprintfStep_inl {m : Mem} {p : Int} {n : Nat} {s : List Nat}
    {e : Int × Mem} (h : safeSnprintfStep m p n s = Sum.inl e) :
    e.1 = POLARSSL_ERR_DEBUG_BUF_TOO_SMALL := by
  unfold safeSnprintfStep at h
  split at h
  · simp only [Sum.inl.injEq] at h
    rw [← h]
  · cases h

/-- A successful SAFE_SNPRINTF consumed exactly the formatted length. -/
lemma safeSnprintfStep_inr {m : Mem} {p : Int} {n : Nat} {s : List Nat}
    {m1 : Mem} {p1 : Int} {n1 : Nat}
    (h : safeSnprintfStep m p n s = Sum.inr (m1, p1, n1)) :
    s.length ≤ n ∧ n1 = n - s.length := by
  unfold safeSnprintfStep at h
  split at h
  · cases h
  · rename_i hle
    simp only [Sum.inr.injEq, Prod.mk.injEq] at h
    exact ⟨Nat.le_of_not_lt hle, h.2.2.symm⟩

/-- An early return out of the arc loop always carries the
buffer-too-small error code. -/
lemma oidLoop_inl : ∀ (bs : List Nat) (m : Mem) (p : Int) (n value : Nat)
    (e : Int × Mem), oidLoop m p n value bs = Sum.inl e →
    e.1 = POLARSSL_ERR_DEBUG_BUF_TOO_SMALL := by
  intro bs
  induction bs with
  | nil =>
    intro m p n value e h
    simp [oidLoop] at h
  | cons b rest ih =>
    intro m p n value e h
    simp only [oidLoop] at h
    split at h
    · exact ih _ _ _ _ _ h
    · cases hs : safeSnprintfStep m p n (dotArc (accum value b)) with
      | inl e2 =>
        simp only [hs, Sum.inl.injEq] at h
        rw [← h]
        exact safeSnprintfStep_inl hs
      | inr st =>
        obtain ⟨m1, p1, n1⟩ := st
        simp only [hs] at h
        exact ih _ _ _ _ _ h

/-- When the arc loop runs to completion, the capacity it consumed is
exactly the length of the rendering of the remaining bytes. -/
lemma oidLoop_length : ∀ (bs : List Nat) (m : Mem) (p : Int) (n value : Nat)
    (m2 : Mem) (p2 : Int) (n2 : Nat),
    oidLoop m p n value bs = Sum.inr (m2, p2, n2) →
    n2 + (renderArcs value bs).length = n := by
  intro bs
  induction bs with
  | nil =>
    intro m p n value m2 p2 n2 h
    simp only [oidLoop, Sum.inr.injEq, Prod.mk.injEq] at h
    simp [renderArcs, h.2.2]
  | cons b rest ih =>
    intro m p n value m2 p2 n2 h
    simp only [oidLoop] at h
    split at h
    · rename_i hb
      have := ih _ _ _ _ _ _ _ h
      simpa [renderArcs, hb] using this
    · rename_i hb
      cases hs : safeSnprintfStep m p n (dotArc (accum value b)) with
      | inl e2 =>
        simp only [hs] at h
        exact (Sum.noConfusion h)
      | inr st =>
        obtain ⟨m1, p1, n1⟩ := st
        simp only [hs] at h
        obtain ⟨hle, hn1⟩ := safeSnprintfStep_inr hs
        have hrec := ih _ _ _ _ _ _ _ h
        simp only [renderArcs, hb, Bool.false_eq_true, if_false, List.length_append]
        omega

/-- C8: oid_get_numeric_string on a zero-length OID succeeds, renders no
arcs (the memory, including the write log, is unchanged) and returns a
character count of zero. -/
theorem claim_C8_empty_oid_ok (m : Mem) (size : Nat) :
    oid_get_numeric_string m size [] = (0, m) := by
  simp [oid_get_numeric_string, oidAfterFirst, oidLoop, UINT_WIDTH_BYTES]

/-- C3: for every OID whose byte length exceeds sizeof(unsigned int) = 4,
the width of the accumulator type, oid_get_numeric_string returns the
BufferTooSmall error, whatever the buffer size, rather than wrapping the
accumulated arc value. -/
theorem claim_C3_overlong_oid_fails (m : Mem) (size : Nat) (oid : List Nat)
    (h : UINT_WIDTH_BYTES < oid.length) :
    (oid_get_numeric_string m size oid).1 = POLARSSL_ERR_DEBUG_BUF_TOO_SMALL := by
  cases oid with
  | nil => simp [UINT_WIDTH_BYTES] at h
  | cons b rest =>
    have hlen : UINT_WIDTH_BYTES < rest.length + 1 := by simpa using h
    simp only [oid_get_numeric_string]
    cases hs : safeSnprintfStep m 0 size (firstStr b) with
    | inl e => simpa using safeSnprintfStep_inl hs
    | inr st =>
      obtain ⟨m1, p1, n1⟩ := st
      simp [oidAfterFirst, hlen]

/-- Witness for C3 at a concrete 5-byte OID. -/
theorem claim_C3_witness :
    UINT_WIDTH_BYTES < ([1, 1, 1, 1, 1] : List Nat).length ∧
    (oid_get_numeric_string zeroMem 3 [1, 1, 1, 1, 1]).1 =
      POLARSSL_ERR_DEBUG_BUF_TOO_SMALL :=
  ⟨by decide, claim_C3_overlong_oid_fails zeroMem 3 [1, 1, 1, 1, 1] (by decide)⟩

/-- C7: whenever oid_get_numeric_string succeeds (returns a nonnegative
count), the returned count equals the length of the full dotted-decimal
rendering of the OID, the NUL terminator not included. -/
theorem claim_C7_success_returns_render_length (m : Mem) (size : Nat)
    (oid : List Nat) (h : 0 ≤ (oid_get_numeric_string m size oid).1) :
    (oid_get_numeric_string m size oid).1 = ((renderOid oid).length : Int) := by
  cases oid with
  | nil =>
    simp [oid_get_numeric_string, oidAfterFirst, oidLoop, UINT_WIDTH_BYTES, renderOid]
  | cons b rest =>
    simp only [oid_get_numeric_string] at h ⊢
    cases hs : safeSnprintfStep m 0 size (firstStr b) with
    | inl e =>
      rw [hs] at h
      have := safeSnprintfStep_inl hs
      rw [this] at h
      simp [POLARSSL_ERR_DEBUG_BUF_TOO_SMALL] at h
    | inr st =>
      obtain ⟨m1, p1, n1⟩ := st
      rw [hs] at h
      obtain ⟨hle, hn1⟩ := safeSnprintfStep_inr hs
      simp only [oidAfterFirst] at h ⊢
      split at h
      · simp [POLARSSL_ERR_DEBUG_BUF_TOO_SMALL] at h
      · rename_i hguard
        rw [if_neg hguard]
        cases hloop : oidLoop m1 p1 n1 0 rest with
        | inl e =>
          rw [hloop] at h
          have := oidLoop_inl _ _ _ _ _ _ hloop
          rw [this] at h
          simp [POLARSSL_ERR_DEBUG_BUF_TOO_SMALL] at h
        | inr st2 =>
          obtain ⟨m2, p2, n2⟩ := st2
          have hrec := oidLoop_length _ _ _ _ _ _ _ _ hloop
          simp only [renderOid, List.length_append]
          omega

/-- Witness for C7: the one-byte OID 0x2A renders as "1.2" and the call
with a size-10 buffer returns 3. -/
theorem claim_C7_witness :
    0 ≤ (oid_get_numeric_string zeroMem 10 [42]).1 ∧
    (oid_get_numeric_string zeroMem 10 [42]).1 = ((renderOid [42]).length : Int) :=
  ⟨by decide, claim_C7_success_returns_render_length zeroMem 10 [42] (by decide)⟩

/-- C1 (divergence witness): on the 9-byte rsaEncryption OID with an
amply sized buffer (100 bytes; the full rendering takes 20 characters),
oid_get_numeric_string does NOT produce "1.2.840.113549.1.1.1": the guard
at line 525 compares the whole OID length 9 against sizeof(unsigned int)
= 4 and returns the buffer-too-small error, although the full
dotted-decimal rendering of this OID is exactly the ASCII string
"1.2.840.113549.1.1.1" (second conjunct). -/
theorem claim_C1_rsa_oid_rejected :
    (oid_get_numeric_string zeroMem 100 OID_PKCS1_RSA).1 =
      POLARSSL_ERR_DEBUG_BUF_TOO_SMALL ∧
    renderOid OID_PKCS1_RSA =
      [49, 46, 50, 46, 56, 52, 48, 46, 49, 49, 51, 53, 52, 57, 46, 49, 46, 49, 46, 49] := by
  constructor
  · decide
  · decide

/-- C2 (divergence witness): called with a zero-size buffer and the OID
0x2A, whose rendering "1.2" does not fit, oid_get_numeric_string does
return the buffer-too-small error but its SAFE_SNPRINTF error path
executes p[n - 1] with n = 0: the write log of the run is exactly
[-1], a single write one byte BEFORE the caller's buffer, i.e. outside
the bounds [0, 0) of the buffer. -/
theorem claim_C2_zero_size_writes_before_buffer :
    (oid_get_numeric_string zeroMem 0 [42]).1 = POLARSSL_ERR_DEBUG_BUF_TOO_SMALL ∧
    (oid_get_numeric_string zeroMem 0 [42]).2.log = [-1] := by
  constructor
  · decide
  · decide

/-- strlen of a C string holding no NUL byte is its full length. -/
lemma cstrlen_of_no_nul : ∀ (s : List Nat), 0 ∉ s → cstrlen s = s.length := by
  intro s
  induction s with
  | nil => intro _; rfl
  | cons a t ih =>
    intro h
    have ha : (a != 0) = true := by
      simp only [bne_iff_ne, ne_eq]
      intro e
      exact h (by rw [e]; exact List.mem_cons_self 0 t)
    have ht : 0 ∉ t := fun hm => h (List.mem_cons_of_mem a hm)
    simp only [cstrlen, List.takeWhile_cons, ha, if_true, List.length_cons] at ih ⊢
    rw [ih ht]

/-- The matching condition of oid_descriptor_from_buf — strlen(asn1) ==
len together with memcmp(asn1, oid, len) == 0 — is exact byte-list
equality whenever the stored C string has no interior NUL byte. -/
lemma oid_match_iff {s bytes : List Nat} (h : 0 ∉ s) :
    (cstrlen s = bytes.length ∧ s.take bytes.length = bytes) ↔ s = bytes := by
  rw [cstrlen_of_no_nul s h]
  constructor
  · rintro ⟨h1, h2⟩
    rw [← h1] at h2
    rw [← List.take_length s, h2]
  · rintro rfl
    exact ⟨rfl, List.take_length _⟩

/-- The scanning loop returns only entries of the table. -/
lemma oid_scan_mem {α : Type} (descr : α → oid_descriptor_t) (bytes : List Nat) :
    ∀ (tbl : List α) (e : α), oid_scan descr bytes tbl = some e → e ∈ tbl := by
  intro tbl
  induction tbl with
  | nil =>
    intro e h
    simp [oid_scan] at h
  | cons x rest ih =>
    intro e h
    simp only [oid_scan] at h
    cases hx : (descr x).asn1 with
    | none =>
      simp only [hx] at h
      exact Option.noConfusion h
    | some s =>
      simp only [hx] at h
      split at h
      · simp only [Option.some.injEq] at h
        rw [← h]
        exact List.mem_cons_self x rest
      · exact List.mem_cons_of_mem x (ih e h)

/-- The scanning loop never returns a sentinel entry: any returned entry
has a non-NULL asn1 field. -/
lemma oid_scan_asn1_isSome {α : Type} (descr : α → oid_descriptor_t)
    (bytes : List Nat) : ∀ (tbl : List α) (e : α),
    oid_scan descr bytes tbl = some e → ((descr e).asn1).isSome = true := by
  intro tbl
  induction tbl with
  | nil =>
    intro e h
    simp [oid_scan] at h
  | cons x rest ih =>
    intro e h
    simp only [oid_scan] at h
    cases hx : (descr x).asn1 with
    | none =>
      simp only [hx] at h
      exact Option.noConfusion h
    | some s =>
      simp only [hx] at h
      split at h
      · simp only [Option.some.injEq] at h
        rw [← h, hx]
        rfl
      · exact ih e h

/-- The generic matcher returns only entries of the table. -/
lemma oid_descriptor_from_buf_mem {α : Type} (descr : α → oid_descriptor_t)
    (tbl : List α) (p : Option (List Nat)) (e : α)
    (h : oid_descriptor_from_buf descr (some tbl) p = some e) : e ∈ tbl := by
  cases p with
  | none => simp [oid_descriptor_from_buf] at h
  | some bytes => exact oid_scan_mem descr bytes tbl e h

/-- The scanning loop computes the first match, in declaration order, of
the entries before the sentinel, under exact byte comparison — provided
the stored raw OIDs contain no interior NUL byte (they are C strings). -/
lemma oid_scan_eq_find {α : Type} (descr : α → oid_descriptor_t) (bytes : List Nat) :
    ∀ (tbl : List α), (∀ e ∈ tbl, 0 ∉ ((descr e).asn1.getD [])) →
    oid_scan descr bytes tbl =
      (tbl.takeWhile fun e => ((descr e).asn1).isSome).find?
        (fun e => (descr e).asn1 == some bytes) := by
  intro tbl
  induction tbl with
  | nil => intro _; rfl
  | cons x rest ih =>
    intro h
    have hx0 := h x (List.mem_cons_self x rest)
    have hrest : ∀ e ∈ rest, 0 ∉ ((descr e).asn1.getD []) :=
      fun e he => h e (List.mem_cons_of_mem x he)
    cases hx : (descr x).asn1 with
    | none =>
      simp [oid_scan, hx, List.takeWhile_cons]
    | some s =>
      have hs : 0 ∉ s := by
        rw [hx] at hx0
        simpa using hx0
      by_cases hsb : s = bytes
      · simp only [oid_scan, hx, List.takeWhile_cons, Option.isSome_some, if_true]
        rw [if_pos ((oid_match_iff hs).mpr hsb)]
        rw [List.find?_cons_of_pos]
        simp [hx, hsb]
      · simp only [oid_scan, hx, List.takeWhile_cons, Option.isSome_some, if_true]
        rw [if_neg (fun hc => hsb ((oid_match_iff hs).mp hc))]
        rw [List.find?_cons_of_neg]
        · exact ih hrest
        · simp [hx, hsb]

/-- C5: for every table and every OID byte buffer, the generic matcher
examines entries in declaration order up to the sentinel, matches exactly
on equal length and identical bytes, returns the first match and reports
not-found otherwise — stated as equality with first-match search over the
pre-sentinel entries, under the C-string side condition that no stored
raw OID contains an interior NUL byte (true of every table in oid.c). -/
theorem claim_C5_generic_matcher_first_match (α : Type)
    (descr : α → oid_descriptor_t) (tbl : List α) (bytes : List Nat)
    (h : ∀ e ∈ tbl, 0 ∉ ((descr e).asn1.getD [])) :
    oid_descriptor_from_buf descr (some tbl) (some bytes) =
      (tbl.takeWhile fun e => ((descr e).asn1).isSome).find?
        (fun e => (descr e).asn1 == some bytes) := by
  simp only [oid_descriptor_from_buf]
  exact oid_scan_eq_find descr bytes tbl h

/-- Witness for C5 at the x520 attribute table and the commonName OID. -/
theorem claim_C5_witness :
    (∀ e ∈ oid_x520_attr_type, 0 ∉ ((oid_x520_attr_t.descriptor e).asn1.getD [])) ∧
    oid_descriptor_from_buf oid_x520_attr_t.descriptor (some oid_x520_attr_type)
        (some OID_AT_CN) =
      (oid_x520_attr_type.takeWhile fun e =>
          ((oid_x520_attr_t.descriptor e).asn1).isSome).find?
        (fun e => (oid_x520_attr_t.descriptor e).asn1 == some OID_AT_CN) :=
  ⟨by decide, claim_C5_generic_matcher_first_match oid_x520_attr_t
      oid_x520_attr_t.descriptor oid_x520_attr_type OID_AT_CN (by decide)⟩

/-- C6: both dual-attribute forward lookups are atomic — on success both
outputs come from the one matched table entry; on NotFound both output
locations keep their prior values. -/
theorem claim_C6_dual_attribute_atomic :
    (∀ (oid : asn1_buf) (md0 : md_type_t) (pk0 : pk_type_t),
      (∃ e, e ∈ oid_sig_alg ∧ oid_sig_alg_from_asn1 oid = some e ∧
        oid_get_sig_alg oid md0 pk0 = (0, e.md_alg, e.pk_alg)) ∨
      oid_get_sig_alg oid md0 pk0 = (POLARSSL_ERR_OID_NOT_FOUND, md0, pk0)) ∧
    (∀ (oid : asn1_buf) (md0 : md_type_t) (c0 : cipher_type_t),
      (∃ e, e ∈ oid_pkcs12_pbe_alg ∧ oid_pkcs12_pbe_alg_from_asn1 oid = some e ∧
        oid_get_pkcs12_pbe_alg oid md0 c0 = (0, e.md_alg, e.cipher_alg)) ∨
      oid_get_pkcs12_pbe_alg oid md0 c0 = (POLARSSL_ERR_OID_NOT_FOUND, md0, c0)) := by
  constructor
  · intro oid md0 pk0
    cases h : oid_sig_alg_from_asn1 oid with
    | none =>
      right
      simp [oid_get_sig_alg, h]
    | some e =>
      left
      refine ⟨e, ?_, rfl, ?_⟩
      · exact oid_descriptor_from_buf_mem oid_sig_alg_t.descriptor oid_sig_alg oid.p e h
      · simp [oid_get_sig_alg, h]
  · intro oid md0 c0
    cases h : oid_pkcs12_pbe_alg_from_asn1 oid with
    | none =>
      right
      simp [oid_get_pkcs12_pbe_alg, h]
    | some e =>
      left
      refine ⟨e, ?_, rfl, ?_⟩
      · exact oid_descriptor_from_buf_mem oid_pkcs12_pbe_alg_t.descriptor
          oid_pkcs12_pbe_alg oid.p e h
      · simp [oid_get_pkcs12_pbe_alg, h]

/-- C4: the (RSA, SHA1) pair appears twice in oid_sig_alg — at index 3
with the modern OID_PKCS1_SHA1 raw OID and at index 8 with the distinct
legacy OID_RSA_SHA_OBS raw OID — and reverse lookup by this pair returns
the modern OID, the one of the entry declared earlier in table order,
regardless of the prior value of the output location. -/
theorem claim_C4_reverse_lookup_prefers_modern_sha1 (out0 : Option (List Nat)) :
    oid_get_oid_by_sig_alg .POLARSSL_PK_RSA .POLARSSL_MD_SHA1 out0 =
      (0, some OID_PKCS1_SHA1) ∧
    (oid_sig_alg[3]?).map (fun e => (e.descriptor.asn1, e.pk_alg, e.md_alg)) =
      some (some OID_PKCS1_SHA1, .POLARSSL_PK_RSA, .POLARSSL_MD_SHA1) ∧
    (oid_sig_alg[8]?).map (fun e => (e.descriptor.asn1, e.pk_alg, e.md_alg)) =
      some (some OID_RSA_SHA_OBS, .POLARSSL_PK_RSA, .POLARSSL_MD_SHA1) ∧
    OID_PKCS1_SHA1 ≠ OID_RSA_SHA_OBS := by
  refine ⟨rfl, by decide, by decide, by decide⟩

/-- C9: a forward lookup with a zero-length OID input returns NotFound in
every table of the module, and the generic matcher never returns a
sentinel entry (every returned entry has a non-NULL asn1). -/
theorem claim_C9_zero_length_lookup_not_found :
    oid_x520_attr_from_asn1 ⟨some []⟩ = none ∧
    oid_x509_ext_from_asn1 ⟨some []⟩ = none ∧
    oid_ext_key_usage_from_asn1 ⟨some []⟩ = none ∧
    oid_sig_alg_from_asn1 ⟨some []⟩ = none ∧
    oid_pk_alg_from_asn1 ⟨some []⟩ = none ∧
    oid_cipher_alg_from_asn1 ⟨some []⟩ = none ∧
    oid_md_alg_from_asn1 ⟨some []⟩ = none ∧
    oid_pkcs12_pbe_alg_from_asn1 ⟨some []⟩ = none ∧
    (∀ (α : Type) (descr : α → oid_descriptor_t) (s : Option (List α))
        (p : Option (List Nat)),
      ((oid_descriptor_from_buf descr s p).all fun e => ((descr e).asn1).isSome) = true) := by
  refine ⟨by decide, by decide, by decide, by decide, by decide, by decide,
    by decide, by decide, ?_⟩
  intro α descr s p
  cases s with
  | none => rfl
  | some tbl =>
    cases p with
    | none => rfl
    | some bytes =>
      cases h : oid_scan descr bytes tbl with
      | none => simp [oid_descriptor_from_buf, h]
      | some e =>
        have := oid_scan_asn1_isSome descr bytes tbl e h
        simp [oid_descriptor_from_buf, h, Option.all, this]

/-- C10: a NULL table pointer or a NULL OID byte pointer makes the
generic matcher return not-found before reading anything, and every
typed forward accessor called on an OidBuffer with a NULL byte pointer
returns NotFound with its output locations unchanged. -/
theorem claim_C10_null_pointer_not_found :
    (∀ (α : Type) (descr : α → oid_descriptor_t) (p : Option (List Nat)),
      oid_descriptor_from_buf descr none p = none) ∧
    (∀ (α : Type) (descr : α → oid_descriptor_t) (tbl : List α),
      oid_descriptor_from_buf descr (some tbl) none = none) ∧
    (∀ out0, oid_get_attr_short_name ⟨none⟩ out0 = (POLARSSL_ERR_OID_NOT_FOUND, out0)) ∧
    (∀ out0, oid_get_x509_ext_type ⟨none⟩ out0 = (POLARSSL_ERR_OID_NOT_FOUND, out0)) ∧
    (∀ out0, oid_get_extended_key_usage ⟨none⟩ out0 = (POLARSSL_ERR_OID_NOT_FOUND, out0)) ∧
    (∀ out0, oid_get_sig_alg_desc ⟨none⟩ out0 = (POLARSSL_ERR_OID_NOT_FOUND, out0)) ∧
    (∀ md0 pk0, oid_get_sig_alg ⟨none⟩ md0 pk0 = (POLARSSL_ERR_OID_NOT_FOUND, md0, pk0)) ∧
    (∀ out0, oid_get_pk_alg ⟨none⟩ out0 = (POLARSSL_ERR_OID_NOT_FOUND, out0)) ∧
    (∀ out0, oid_get_cipher_alg ⟨none⟩ out0 = (POLARSSL_ERR_OID_NOT_FOUND, out0)) ∧
    (∀ out0, oid_get_md_alg ⟨none⟩ out0 = (POLARSSL_ERR_OID_NOT_FOUND, out0)) ∧
    (∀ md0 c0, oid_get_pkcs12_pbe_alg ⟨none⟩ md0 c0 = (POLARSSL_ERR_OID_NOT_FOUND, md0, c0)) := by
  refine ⟨?_, ?_, fun _ => rfl, fun _ => rfl, fun _ => rfl, fun _ => rfl,
    fun _ _ => rfl, fun _ => rfl, fun _ => rfl, fun _ => rfl, fun _ _ => rfl⟩
  · intro α descr p
    cases p with
    | none => rfl
    | some bytes => rfl
  · intro α descr tbl
    rfl
